import Mathlib

/-!
Shallow embedding of the ingestion core of the `varity` repository
(ESCO taxonomy ingestion into a vector store), covering:

* `src/domain/ingestion/state_management_service.py`
  (`determine_ingestion_state`, `make_ingestion_decision`,
  `_is_timestamp_stale`),
* `src/application/services/ingestion_application_service.py`
  (`should_run_ingestion`, `run_ingestion`),
* `src/infrastructure/ingestion/ingestion_orchestrator.py`
  (`run_complete_ingestion`, `_update_heartbeat`),
* `src/infrastructure/ingestion/relation_builder.py`
  (`create_skill_relations`, `create_isco_group_relations`,
  `create_broader_skill_relations`),
* `src/infrastructure/ingestion/esco_data_reader.py`
  (`standardize_hierarchy_columns`).

Modelling conventions:
* Python `datetime` values are modelled as `Int` epoch seconds; ISO-8601
  parsing (`datetime.fromisoformat`, which raises on bad input) is modelled
  by an explicit `parse : String → Option Int` parameter (`none` = the
  `ValueError`/`TypeError` branch).
* Python dict-shaped status records become a structure with `Option`
  fields (`none` = key absent or `None`).
* Python truthiness of an optional string (`if timestamp:`) is explicit:
  absent and empty strings are falsy.
* Fallible store calls are modelled with `Except String`; a caught-and-
  logged exception is a branch that returns normally.
-/

namespace Varity

/-- The `IngestionState` enum from `src/core/entities/ingestion_entity.py`. -/
inductive IngestionState where
  | NOT_STARTED
  | IN_PROGRESS
  | COMPLETED
  | FAILED
  | UNKNOWN
deriving DecidableEq, Repr

/-- The status record read from the store (`client.get_ingestion_status()`):
a dict with optional `status` and `timestamp` keys. -/
structure StatusData where
  status : Option String
  timestamp : Option String
deriving DecidableEq, Repr

/-- The `status_mapping` dict in `determine_ingestion_state`
(unrecognized strings map to `UNKNOWN`, the `.get(..., UNKNOWN)` default). -/
def statusMapping (s : String) : IngestionState :=
  if s = "not_started" then .NOT_STARTED
  else if s = "in_progress" then .IN_PROGRESS
  else if s = "completed" then .COMPLETED
  else if s = "failed" then .FAILED
  else if s = "unknown" then .UNKNOWN
  else .UNKNOWN

/-- Python truthiness of the optional `timestamp` value: `None` and the
empty string are falsy. -/
def timestampTruthy : Option String → Bool
  | none => false
  | some s => s ≠ ""

/-- `StateManagementService._is_timestamp_stale`: parse the ISO timestamp,
compare `now - timestamp` against the threshold; a parse failure
(`ValueError`/`TypeError`) returns `True`. -/
def isTimestampStale (parse : String → Option Int) (now : Int)
    (timestampStr : String) (thresholdSeconds : Int) : Bool :=
  match parse timestampStr with
  | some t => now - t > thresholdSeconds
  | none => true

/-- `StateManagementService.determine_ingestion_state`: map the raw status
string through `status_mapping`; if the mapped state is `IN_PROGRESS` and
the timestamp is truthy and stale, override to `UNKNOWN`. -/
def determineIngestionState (parse : String → Option Int) (now : Int)
    (statusData : StatusData) (stalenessThresholdSeconds : Int) : IngestionState :=
  let statusStr := statusData.status.getD "unknown"
  let timestampStr := statusData.timestamp
  let state := statusMapping statusStr
  if state = .IN_PROGRESS ∧ timestampTruthy timestampStr then
    match timestampStr with
    | some ts =>
        if isTimestampStale parse now ts stalenessThresholdSeconds then
          .UNKNOWN
        else state
    | none => state
  else state

/-- The `IngestionDecision` dataclass (fields the decision logic sets). -/
structure IngestionDecision where
  should_run : Bool
  reason : String
  current_state : Option IngestionState
  force_required : Bool
  existing_classes : List String
  timestamp : Option String
  is_stale : Bool
deriving DecidableEq, Repr

/-- `StateManagementService.make_ingestion_decision`, translated branch by
branch. Fields not passed at a Python construction site take the dataclass
defaults (`is_stale=False`). -/
def makeIngestionDecision (current_state : IngestionState)
    (existing_classes : List String) (force_reingest : Bool)
    (is_interactive : Bool) (timestamp : Option String := none)
    (is_stale : Bool := false) : IngestionDecision :=
  if force_reingest then
    { should_run := true
      reason := "Force re-ingestion requested"
      current_state := some current_state
      force_required := false
      existing_classes := existing_classes
      timestamp := timestamp
      is_stale := false }
  else if current_state = .COMPLETED then
    { should_run := false
      reason := "Ingestion already completed"
      current_state := some current_state
      force_required := true
      existing_classes := existing_classes
      timestamp := timestamp
      is_stale := false }
  else if current_state = .IN_PROGRESS then
    if ¬ is_stale then
      { should_run := false
        reason := "Ingestion currently in progress and not stale"
        current_state := some current_state
        force_required := true
        existing_classes := existing_classes
        timestamp := timestamp
        is_stale := false }
    else
      { should_run := true
        reason := "Stale in-progress ingestion detected, proceeding with new ingestion"
        current_state := some current_state
        force_required := false
        existing_classes := existing_classes
        timestamp := timestamp
        is_stale := true }
  else if existing_classes ≠ [] ∧ ¬ force_reingest then
    if ¬ is_interactive then
      { should_run := false
        reason := "Non-interactive mode with existing data for classes: " ++
          String.intercalate ", " existing_classes
        current_state := some current_state
        force_required := true
        existing_classes := existing_classes
        timestamp := timestamp
        is_stale := false }
    else
      { should_run := true
        reason := "Interactive mode with existing data for classes: " ++
          String.intercalate ", " existing_classes
        current_state := some current_state
        force_required := false
        existing_classes := existing_classes
        timestamp := timestamp
        is_stale := false }
  else
    { should_run := true
      reason := "No existing data or force re-ingestion requested"
      current_state := some current_state
      force_required := false
      existing_classes := existing_classes
      timestamp := timestamp
      is_stale := false }

/-- Substring containment, used to state the spec's "reason contains ...". -/
def containsSub (hay needle : String) : Prop :=
  ∃ pre post, hay = pre ++ needle ++ post

/-- The slice of `IngestionConfig` consumed by `should_run_ingestion`
(`src/core/entities/ingestion_entity.py`). `classes_to_ingest` and
`is_interactive_mode` are the dataclass properties. -/
structure IngestionConfig where
  classes : List String
  force_reingest : Bool
  docker_env : Bool
  non_interactive : Bool
  staleness_threshold_seconds : Int
deriving Repr

def IngestionConfig.classes_to_ingest (c : IngestionConfig) : List String :=
  if c.classes ≠ [] then c.classes
  else ["Occupation", "Skill", "ISCOGroup", "SkillCollection"]

def IngestionConfig.is_interactive_mode (c : IngestionConfig) : Bool :=
  ¬ (c.docker_env ∨ c.non_interactive)

/-- `IngestionApplicationService.should_run_ingestion`. Inputs beyond the
config: the status record read from the store, a per-class object-count
probe (`none` models `get_repository`/`count_objects` raising, which the
`except ... pass` treats as "no data"), the timestamp parser and the
current time. The temporary `config.force_reingest` override followed by
the `finally` restore nets out to calling the domain decision with
`effective_force`. -/
def shouldRunIngestion (parse : String → Option Int) (now : Int)
    (statusData : StatusData) (probe : String → Option Nat)
    (config : IngestionConfig) (force_reingest : Bool := false) :
    IngestionDecision :=
  let rawStatus := statusData.status.getD "unknown"
  let timestamp := statusData.timestamp
  let is_stale :=
    if rawStatus = "in_progress" ∧ timestampTruthy timestamp then
      match timestamp with
      | some ts => isTimestampStale parse now ts config.staleness_threshold_seconds
      | none => false
    else false
  let current_state :=
    if is_stale then IngestionState.IN_PROGRESS
    else determineIngestionState parse now statusData config.staleness_threshold_seconds
  let existing_classes := config.classes_to_ingest.filter fun className =>
    match probe className with
    | some n => n > 0
    | none => false
  let effective_force := force_reingest || config.force_reingest
  makeIngestionDecision current_state existing_classes effective_force
    config.is_interactive_mode timestamp is_stale

/-! ### Relation builder (`src/infrastructure/ingestion/relation_builder.py`) -/

/-- A queued cross-reference, the dict pushed onto `refs_batch`. -/
structure RefTuple where
  from_class : String
  from_uuid : String
  ref_property : String
  to_class : String
  to_uuid : String
deriving DecidableEq, Repr

/-- Python `str.split(sep)` for a one-character separator, over the
string's character list (structural, so it computes in the kernel):
splitting always yields at least one (possibly empty) segment, and
consecutive separators yield empty segments, as in Python. -/
def splitOnChar (sep : Char) : List Char → List (List Char)
  | [] => [[]]
  | c :: rest =>
    let r := splitOnChar sep rest
    if c = sep then [] :: r
    else
      match r with
      | seg :: segs => (c :: seg) :: segs
      | [] => [[c]]

/-- Python `uri.split("/")[-1]`: the final path segment (the split never
returns an empty list, so the default of `getLastD` is unreachable). -/
def lastSegment (uri : String) : String :=
  ⟨(splitOnChar '/' uri.data).getLastD []⟩

/-- Python `str.lower()`, over the character list (structural, so it
computes in the kernel). -/
def lowerStr (s : String) : String :=
  ⟨s.data.map Char.toLower⟩

/-- One row of `occupationSkillRelations_en.csv` as consumed by
`create_skill_relations`; `relationType` is optional because the code uses
`record.get("relationType", "related")`. -/
structure OccSkillRow where
  occupationUri : String
  skillUri : String
  relationType : Option String
deriving DecidableEq, Repr

/-- The `ref_prop` chained conditional in `create_skill_relations`. -/
def refPropFor (relation_type : String) : String :=
  if relation_type = "essential" then "hasEssentialSkill"
  else if relation_type = "optional" then "hasOptionalSkill"
  else "hasEssentialSkill"

/-- The body of one iteration of the `create_skill_relations` row loop:
either a queued reference, or a skip (`(none, 1)` — endpoint missing from
the pre-fetched UUID sets). -/
def processOccSkillRow (occupation_uuids skill_uuids : List String)
    (record : OccSkillRow) : Option RefTuple × Nat :=
  let occ_uuid := lastSegment record.occupationUri
  let skill_uuid := lastSegment record.skillUri
  let relation_type := record.relationType.getD "related"
  if occ_uuid ∉ occupation_uuids ∨ skill_uuid ∉ skill_uuids then
    (none, 1)
  else
    (some { from_class := "Occupation", from_uuid := occ_uuid
            ref_property := refPropFor relation_type
            to_class := "Skill", to_uuid := skill_uuid }, 0)

/-- The `create_skill_relations` row loop: accumulates `refs_batch` in row
order and the `skipped` counter. -/
def processOccSkillRows (occupation_uuids skill_uuids : List String) :
    List OccSkillRow → List RefTuple × Nat
  | [] => ([], 0)
  | record :: rest =>
    let cur := processOccSkillRow occupation_uuids skill_uuids record
    let acc := processOccSkillRows occupation_uuids skill_uuids rest
    match cur.1 with
    | some ref => (ref :: acc.1, cur.2 + acc.2)
    | none => (acc.1, cur.2 + acc.2)

/-- `RelationBuilder.create_skill_relations`. `df` is `none` when the CSV
file is missing (`read_csv` returned `None`). `batchAdd` models
`client.batch_add_references`, which may raise. On success the model
returns the submitted batch and the skip counter (the Python returns
`None`; the pair records the observable effect). -/
def createSkillRelations (batchAdd : List RefTuple → Except String Unit)
    (df : Option (List OccSkillRow))
    (occupation_uuids skill_uuids : List String) :
    Except String (List RefTuple × Nat) :=
  match df with
  | none => .ok ([], 0)
  | some rows =>
    if rows.length = 0 then .ok ([], 0)
    else
      let (refs_batch, skipped) :=
        processOccSkillRows occupation_uuids skill_uuids rows
      if refs_batch ≠ [] then
        match batchAdd refs_batch with
        | .ok _ => .ok (refs_batch, skipped)
        | .error e => .error e
      else .ok (refs_batch, skipped)

/-- An object returned by `client.get_objects`: `_id` is always present on
store objects; `code` / `iscoCode` are optional properties (`g.get(...)`). -/
structure StoreObj where
  id : String
  code : Option String
  iscoCode : Option String
deriving DecidableEq, Repr

/-- The store-client surface used by `create_isco_group_relations`; both
operations may raise. -/
structure IscoClient where
  getObjects : String → Except String (List StoreObj)
  batchAddReferences : List RefTuple → Except String Unit

/-- Python truthiness of an optional string property (`if code:`). -/
def optStrTruthy : Option String → Bool
  | none => false
  | some s => s ≠ ""

/-- The `isco_by_code` dict: later insertions overwrite earlier ones, so
lookups go through the reversed build order. -/
def iscoByCode (isco_groups : List StoreObj) : List (String × String) :=
  isco_groups.foldl (fun acc g =>
    match g.code with
    | some c => if c ≠ "" then (c, g.id) :: acc else acc
    | none => acc) []

/-- A `try: ... except Exception: log` wrapper: any error is swallowed and
the function returns normally. -/
def swallowErrors (body : Except String Unit) : Except String Unit :=
  match body with
  | .ok _ => .ok ()
  | .error _ => .ok ()

/-- `RelationBuilder.create_isco_group_relations`: the entire body sits in
a `try` whose `except` only logs, so every store-client failure is
swallowed and the step returns normally. -/
def createIscoGroupRelations (client : IscoClient) : Except String Unit :=
  swallowErrors <| do
    let isco_groups ← client.getObjects "ISCOGroup"
    let isco_by_code := iscoByCode isco_groups
    let occupations ← client.getObjects "Occupation"
    let refs_batch := occupations.foldl (fun acc occ =>
      match occ.iscoCode with
      | some isco_code =>
          if isco_code ≠ "" then
            match isco_by_code.lookup isco_code with
            | some toUuid =>
                acc ++ [{ from_class := "Occupation", from_uuid := occ.id
                          ref_property := "memberOfISCOGroup"
                          to_class := "ISCOGroup", to_uuid := toUuid }]
            | none => acc
          else acc
      | none => acc) []
    if refs_batch ≠ [] then client.batchAddReferences refs_batch
    else pure ()

/-! ### Data reader column standardization
(`src/infrastructure/ingestion/esco_data_reader.py`) -/

/-- A pandas row, modelled as cells keyed by column name; a cell value of
`none` models `NaN`. Columns absent from a row behave as `NaN`. -/
abbrev DFRow := List (String × Option String)

/-- A pandas DataFrame: column list plus rows. -/
structure DataFrame where
  cols : List String
  rows : List DFRow
deriving Repr

/-- `row[col]`: the cell value, `none` for `NaN` or an absent column. -/
def dfGet (row : DFRow) (col : String) : Option String :=
  (row.lookup col).join

/-- The wide "leveled" hierarchy columns probed by
`standardize_hierarchy_columns`. -/
def levelCols : List String := ["Level 0 URI", "Level 1 URI", "Level 2 URI", "Level 3 URI"]

/-- One level cell is usable when the column exists, the value is not
`NaN` (`pd.notna`) and not the empty string. -/
def levelNonEmpty (cols : List String) (row : DFRow) (lv : String) : Bool :=
  lv ∈ cols ∧ (dfGet row lv).isSome ∧ dfGet row lv ≠ some ""

/-- The per-row `get_broader_narrower` helper: the last two non-empty
level columns give (broader, narrower); otherwise `(None, None)`. -/
def getBroaderNarrower (cols : List String) (row : DFRow) :
    Option String × Option String :=
  let non_empty := levelCols.filter (levelNonEmpty cols row)
  match non_empty.reverse with
  | lastLv :: secondLastLv :: _ =>
      (dfGet row secondLastLv, dfGet row lastLv)
  | _ => (none, none)

/-- Assignment `df[["broaderUri", "narrowerUri"]] = ...` on one row. -/
def assignBroaderNarrower (cols : List String) (row : DFRow) : DFRow :=
  let (b, n) := getBroaderNarrower cols row
  (row.filter fun kv => kv.1 ≠ "broaderUri" ∧ kv.1 ≠ "narrowerUri") ++
    [("broaderUri", b), ("narrowerUri", n)]

/-- The `rename_map` built by `standardize_hierarchy_columns` for the
non-leveled format: first present alias wins, and only when the canonical
name is absent. -/
def hierarchyRenameMap (cols : List String) : List (String × String) :=
  (if "broaderUri" ∉ cols then
      match ["broaderConceptUri", "parentUri", "broaderSkillUri"].find?
          (fun alt => alt ∈ cols) with
      | some alt => [(alt, "broaderUri")]
      | none => []
    else []) ++
  (if "narrowerUri" ∉ cols then
      match ["narrowerConceptUri", "childUri", "conceptUri", "targetUri",
          "skillUri"].find? (fun alt => alt ∈ cols) with
      | some alt => [(alt, "narrowerUri")]
      | none => []
    else [])

/-- `df.rename(columns=rename_map)` applied to one column name. -/
def renameCol (renameMap : List (String × String)) (c : String) : String :=
  (renameMap.lookup c).getD c

/-- `ESCODataReader.standardize_hierarchy_columns`. -/
def standardizeHierarchyColumns (df : DataFrame) : DataFrame :=
  if "Level 0 URI" ∈ df.cols then
    let rows1 := df.rows.map (assignBroaderNarrower df.cols)
    let cols1 := (df.cols.filter fun c =>
        c ≠ "broaderUri" ∧ c ≠ "narrowerUri") ++ ["broaderUri", "narrowerUri"]
    -- dropna(subset=["broaderUri", "narrowerUri"])
    let rows2 := rows1.filter fun row =>
      (dfGet row "broaderUri").isSome ∧ (dfGet row "narrowerUri").isSome
    -- df[df["broaderUri"] != df["narrowerUri"]]
    let rows3 := rows2.filter fun row =>
      dfGet row "broaderUri" ≠ dfGet row "narrowerUri"
    { cols := cols1, rows := rows3 }
  else
    let renameMap := hierarchyRenameMap df.cols
    if renameMap ≠ [] then
      { cols := df.cols.map (renameCol renameMap)
        rows := df.rows.map fun row =>
          row.map fun kv => (renameCol renameMap kv.1, kv.2) }
    else df

/-- One iteration of the `create_broader_skill_relations` row loop. A row
whose `conceptUri`/`broaderUri` cell is `NaN` raises inside the per-row
`try` (a float has no `.split`), is caught and logged, and contributes
neither a reference nor a skip. -/
def processBroaderSkillRow (skill_uuids : List String) (row : DFRow) :
    Option RefTuple × Nat :=
  match dfGet row "conceptUri", dfGet row "broaderUri" with
  | some conceptUriVal, some broaderUriVal =>
    let skill_uuid := lastSegment conceptUriVal
    let broader_uuid := lastSegment broaderUriVal
    if skill_uuid ∉ skill_uuids ∨ broader_uuid ∉ skill_uuids then
      (none, 1)
    else
      (some { from_class := "Skill", from_uuid := skill_uuid
              ref_property := "broaderSkill"
              to_class := "Skill", to_uuid := broader_uuid }, 0)
  | _, _ => (none, 0)

/-- The `create_broader_skill_relations` row loop. -/
def processBroaderSkillRows (skill_uuids : List String) :
    List DFRow → List RefTuple × Nat
  | [] => ([], 0)
  | row :: rest =>
    let cur := processBroaderSkillRow skill_uuids row
    let acc := processBroaderSkillRows skill_uuids rest
    match cur.1 with
    | some ref => (ref :: acc.1, cur.2 + acc.2)
    | none => (acc.1, cur.2 + acc.2)

/-- `RelationBuilder.create_broader_skill_relations`: standardize columns,
return early unless columns literally named `broaderUri` and `conceptUri`
are both present and the frame is non-empty, then queue and submit. As in
`createSkillRelations`, the returned pair records the submitted batch and
the skip counter. -/
def createBroaderSkillRelations (batchAdd : List RefTuple → Except String Unit)
    (df : Option DataFrame) (skill_uuids : List String) :
    Except String (List RefTuple × Nat) :=
  match df with
  | none => .ok ([], 0)
  | some df0 =>
    let dfStd := standardizeHierarchyColumns df0
    if "broaderUri" ∉ dfStd.cols ∨ "conceptUri" ∉ dfStd.cols then .ok ([], 0)
    else if dfStd.rows.length = 0 then .ok ([], 0)
    else
      let (refs_batch, skipped) := processBroaderSkillRows skill_uuids dfStd.rows
      if refs_batch ≠ [] then
        match batchAdd refs_batch with
        | .ok _ => .ok (refs_batch, skipped)
        | .error e => .error e
      else .ok (refs_batch, skipped)

/-! ### Orchestrator and `run_ingestion`
(`src/infrastructure/ingestion/ingestion_orchestrator.py`,
`src/application/services/ingestion_application_service.py`)

The backing store is modelled as the accumulated entity/relation writes
plus the singleton ingestion-status record (upsert-by-fixed-id). A
pipeline step is summarized by its observable effect: the writes it
commits before returning or raising, and whether it raises. Whether a
`set_ingestion_metadata` call raises is a parameter `metaFails` keyed by
the status string being written; a failed write leaves the store
unchanged. -/

/-- The persisted status record: status string plus the detail payload
(the error message, for `failed` records). -/
structure StatusWrite where
  status : String
  detail : String
deriving DecidableEq, Repr

/-- The backing store. -/
structure Store where
  writes : List String
  statusRec : Option StatusWrite
deriving DecidableEq, Repr

/-- One pipeline step, summarized by name, committed writes, and whether
it raises after committing them. -/
structure Step where
  name : String
  stepWrites : List String
  err : Option String
deriving DecidableEq, Repr

/-- `client.set_ingestion_metadata(status, details)`: upserts the status
record, or raises (second component) without touching the store. -/
def setIngestionMetadata (metaFails : String → Bool) (status detail : String)
    (s : Store) : Store × Option String :=
  if metaFails status then (s, some ("status write failed: " ++ status))
  else ({ s with statusRec := some { status := status, detail := detail } }, none)

/-- `IngestionOrchestrator._update_heartbeat`: a `set_ingestion_metadata`
with `status="in_progress"` whose failure is caught and logged. -/
def updateHeartbeat (metaFails : String → Bool) (stepName : String)
    (s : Store) : Store :=
  (setIngestionMetadata metaFails "in_progress" stepName s).1

/-- The step loop of `IngestionOrchestrator.run_complete_ingestion`:
heartbeat, run the step, re-raise its exception (the per-step `results`
dict is diagnostic only and not modelled). -/
def runSteps (metaFails : String → Bool) :
    List Step → Store → Store × Option String
  | [], s => (s, none)
  | step :: rest, s =>
    let s1 := updateHeartbeat metaFails step.name s
    let s2 := { s1 with writes := s1.writes ++ step.stepWrites }
    match step.err with
    | some e => (s2, some e)
    | none => runSteps metaFails rest s2

/-- The slice of `IngestionResult` produced by `run_ingestion`. -/
structure RunResult where
  success : Bool
  steps_completed : Nat
  total_steps : Nat
  errors : List String
  final_state : IngestionState
deriving DecidableEq, Repr

/-- `IngestionApplicationService.run_ingestion` (orchestrator path):
write the starting `in_progress` record (failure logged as a warning),
run the pipeline, then inside the same `try` write the terminal
`completed` record — so a failure of that write falls into the `except`
handler, which writes a `failed` record (its own failure swallowed) and
returns a failed result carrying the exception text. -/
def runIngestion (metaFails : String → Bool) (steps : List Step)
    (s0 : Store) : Store × RunResult :=
  let s1 := (setIngestionMetadata metaFails "in_progress" "started_at" s0).1
  let run := runSteps metaFails steps s1
  match run.2 with
  | none =>
    let cw := setIngestionMetadata metaFails "completed" "completed_at" run.1
    match cw.2 with
    | none =>
      (cw.1, { success := true, steps_completed := 12, total_steps := 12
               errors := [], final_state := .COMPLETED })
    | some e =>
      ((setIngestionMetadata metaFails "failed" e cw.1).1,
        { success := false, steps_completed := 0, total_steps := 12
          errors := [e], final_state := .FAILED })
  | some e =>
    ((setIngestionMetadata metaFails "failed" e run.1).1,
      { success := false, steps_completed := 0, total_steps := 12
        errors := [e], final_state := .FAILED })

/-- The writes committed by a fully-finished prefix of the pipeline. -/
def stepsWrites (steps : List Step) : List String :=
  (steps.map Step.stepWrites).flatten

/-! ## Theorems -/

theorem swallowErrors_ok (body : Except String Unit) :
    swallowErrors body = .ok () := by
  cases body <;> rfl

/-- C10: every decision returned by `make_ingestion_decision`, over all
combinations of state, existing classes, force flag, interactivity,
timestamp and staleness, satisfies `should_run = ¬ force_required`:
blocked decisions always report that force is required and go decisions
never do. -/
theorem decision_should_run_iff_not_force_required
    (current_state : IngestionState) (existing_classes : List String)
    (force_reingest is_interactive : Bool) (timestamp : Option String)
    (is_stale : Bool) :
    (makeIngestionDecision current_state existing_classes force_reingest
        is_interactive timestamp is_stale).should_run =
      !(makeIngestionDecision current_state existing_classes force_reingest
        is_interactive timestamp is_stale).force_required := by
  unfold makeIngestionDecision
  repeat' split
  all_goals rfl

/-- C4: with `force_reingest = true`, `make_ingestion_decision` returns
`should_run = true`, `force_required = false` and a reason mentioning
"force" (the literal reason is "Force re-ingestion requested"), for every
current state — including `COMPLETED` — and every (possibly non-empty)
`existing_classes`. -/
theorem force_reingest_always_runs
    (current_state : IngestionState) (existing_classes : List String)
    (is_interactive : Bool) (timestamp : Option String) (is_stale : Bool) :
    (makeIngestionDecision current_state existing_classes true
        is_interactive timestamp is_stale).should_run = true ∧
    (makeIngestionDecision current_state existing_classes true
        is_interactive timestamp is_stale).force_required = false ∧
    (makeIngestionDecision current_state existing_classes true
        is_interactive timestamp is_stale).reason =
      "Force re-ingestion requested" ∧
    containsSub (lowerStr (makeIngestionDecision current_state existing_classes
        true is_interactive timestamp is_stale).reason) "force" := by
  refine ⟨rfl, rfl, rfl, "", " re-ingestion requested", ?_⟩
  show lowerStr "Force re-ingestion requested" =
    "" ++ "force" ++ " re-ingestion requested"
  decide

/-- C6: `create_isco_group_relations` wraps its whole body in a
log-only exception handler, so it returns normally for every behaviour of
the store client (including one whose `get_objects` and
`batch_add_references` always raise); by contrast, a batch-write failure
in `create_skill_relations` propagates out of that step. -/
theorem isco_group_relations_never_propagates :
    (∀ client : IscoClient, createIscoGroupRelations client = .ok ()) ∧
    createSkillRelations (fun _ => .error "batch write down")
        (some [{ occupationUri := "uri/o1", skillUri := "uri/s1",
                 relationType := some "essential" }]) ["o1"] ["s1"] =
      .error "batch write down" := by
  constructor
  · intro client
    unfold createIscoGroupRelations
    exact swallowErrors_ok _
  · rfl

/-- C1 counterexample: a status record with `status = "in_progress"` and
no timestamp at all. The claim says a missing timestamp is treated as
stale, so `determine_ingestion_state` should return `UNKNOWN`; the code's
`if state == IN_PROGRESS and timestamp_str` guard skips the staleness
check entirely and returns `IN_PROGRESS`. -/
theorem determine_state_missing_timestamp_counterexample :
    determineIngestionState (fun _ => none) 0
        { status := some "in_progress", timestamp := none } 3600 =
      .IN_PROGRESS ∧
    (IngestionState.IN_PROGRESS ≠ IngestionState.UNKNOWN) := by
  decide

/-- C1 (amended): for an `in_progress` status record,
`determine_ingestion_state` returns `UNKNOWN` exactly when a present,
non-empty timestamp is stale (unparseable, or `now - timestamp` over the
threshold); in every other case — a fresh parseable timestamp, but also a
missing or empty one — it returns `IN_PROGRESS`. -/
theorem determine_state_unknown_iff_present_and_stale
    (parse : String → Option Int) (now threshold : Int) (sd : StatusData)
    (h : sd.status = some "in_progress") :
    (determineIngestionState parse now sd threshold = .UNKNOWN ↔
      ∃ ts, sd.timestamp = some ts ∧ ts ≠ "" ∧
        isTimestampStale parse now ts threshold = true) ∧
    (determineIngestionState parse now sd threshold = .UNKNOWN ∨
      determineIngestionState parse now sd threshold = .IN_PROGRESS) := by
  unfold determineIngestionState
  rw [h]
  rcases sd.timestamp with _ | ts
  · simp [statusMapping, timestampTruthy]
  · by_cases hts : ts = ""
    · subst hts
      simp [statusMapping, timestampTruthy]
    · by_cases hstale : isTimestampStale parse now ts threshold = true
      · simp [statusMapping, timestampTruthy, hts, hstale]
      · simp only [Bool.not_eq_true] at hstale
        simp [statusMapping, timestampTruthy, hts, hstale]

/-- Witness for C1 (amended): an `in_progress` record whose timestamp
parses to 3 hours before `now` against a 7200-second threshold. -/
theorem determine_state_unknown_iff_present_and_stale_witness :
    (determineIngestionState (fun _ => some 0) 10800
        { status := some "in_progress", timestamp := some "t" } 7200 =
          .UNKNOWN ↔
      ∃ ts, (some "t" : Option String) = some ts ∧ ts ≠ "" ∧
        isTimestampStale (fun _ => some 0) 10800 ts 7200 = true) ∧
    (determineIngestionState (fun _ => some 0) 10800
        { status := some "in_progress", timestamp := some "t" } 7200 =
          .UNKNOWN ∨
      determineIngestionState (fun _ => some 0) 10800
        { status := some "in_progress", timestamp := some "t" } 7200 =
          .IN_PROGRESS) :=
  determine_state_unknown_iff_present_and_stale
    (fun _ => some 0) 10800 7200
    { status := some "in_progress", timestamp := some "t" } rfl

/-- C5: with stored status `in_progress` and no force flag:
(1) a non-stale record blocks — `should_run = false`, `force_required =
true`, reason containing "in progress and not stale"; and
(2) through `should_run_ingestion`, a record whose timestamp parses to a
time more than the staleness threshold before `now` yields
`should_run = true` and `is_stale = true`. -/
theorem in_progress_stale_vs_not_stale :
    (∀ (existing_classes : List String) (is_interactive : Bool)
        (timestamp : Option String),
      (makeIngestionDecision .IN_PROGRESS existing_classes false
          is_interactive timestamp false).should_run = false ∧
      (makeIngestionDecision .IN_PROGRESS existing_classes false
          is_interactive timestamp false).force_required = true ∧
      containsSub (makeIngestionDecision .IN_PROGRESS existing_classes false
          is_interactive timestamp false).reason
        "in progress and not stale") ∧
    (∀ (parse : String → Option Int) (now t : Int)
        (probe : String → Option Nat) (config : IngestionConfig)
        (tsStr : String),
      parse tsStr = some t →
      now - t > config.staleness_threshold_seconds →
      tsStr ≠ "" →
      config.force_reingest = false →
      (shouldRunIngestion parse now
          { status := some "in_progress", timestamp := some tsStr }
          probe config false).should_run = true ∧
      (shouldRunIngestion parse now
          { status := some "in_progress", timestamp := some tsStr }
          probe config false).is_stale = true) := by
  constructor
  · intro existing_classes is_interactive timestamp
    refine ⟨rfl, rfl, "Ingestion currently ", "", ?_⟩
    show ("Ingestion currently in progress and not stale" : String) =
      "Ingestion currently " ++ "in progress and not stale" ++ ""
    decide
  · intro parse now t probe config tsStr hparse hage hts hforce
    have hstale : isTimestampStale parse now tsStr
        config.staleness_threshold_seconds = true := by
      unfold isTimestampStale
      rw [hparse]
      simpa using hage
    constructor <;>
      simp [shouldRunIngestion, timestampTruthy, hstale, hts, hforce,
        makeIngestionDecision]

/-- Witness for C5: the spec's literal scenario — timestamp three hours
old against a 7200-second threshold, plus a concrete non-stale blocking
decision. -/
theorem in_progress_stale_vs_not_stale_witness :
    ((makeIngestionDecision .IN_PROGRESS ["Occupation"] false false
        (some "t") false).should_run = false ∧
      (makeIngestionDecision .IN_PROGRESS ["Occupation"] false false
        (some "t") false).force_required = true ∧
      containsSub (makeIngestionDecision .IN_PROGRESS ["Occupation"] false
        false (some "t") false).reason "in progress and not stale") ∧
    ((shouldRunIngestion (fun _ => some 0) 10800
        { status := some "in_progress", timestamp := some "t" }
        (fun _ => some 5)
        { classes := [], force_reingest := false, docker_env := false
          non_interactive := true, staleness_threshold_seconds := 7200 }
        false).should_run = true ∧
      (shouldRunIngestion (fun _ => some 0) 10800
        { status := some "in_progress", timestamp := some "t" }
        (fun _ => some 5)
        { classes := [], force_reingest := false, docker_env := false
          non_interactive := true, staleness_threshold_seconds := 7200 }
        false).is_stale = true) :=
  ⟨in_progress_stale_vs_not_stale.1 ["Occupation"] false (some "t"),
   in_progress_stale_vs_not_stale.2 (fun _ => some 0) 10800 0
     (fun _ => some 5)
     { classes := [], force_reingest := false, docker_env := false
       non_interactive := true, staleness_threshold_seconds := 7200 }
     "t" rfl (by decide) (by decide) rfl⟩

theorem processOccSkillRows_append (occupation_uuids skill_uuids : List String)
    (xs ys : List OccSkillRow) :
    processOccSkillRows occupation_uuids skill_uuids (xs ++ ys) =
      ((processOccSkillRows occupation_uuids skill_uuids xs).1 ++
          (processOccSkillRows occupation_uuids skill_uuids ys).1,
        (processOccSkillRows occupation_uuids skill_uuids xs).2 +
          (processOccSkillRows occupation_uuids skill_uuids ys).2) := by
  induction xs with
  | nil => simp [processOccSkillRows]
  | cons x xs ih =>
    rcases hx : processOccSkillRow occupation_uuids skill_uuids x with ⟨refOpt, k⟩
    rcases refOpt with _ | ref <;>
      simp only [List.cons_append, processOccSkillRows, hx, List.append_eq] <;>
      rw [ih] <;> simp [Nat.add_assoc]


/-- C8: a relation row whose derived occupation or skill identifier is
absent from the pre-fetched UUID sets never aborts the
`create_skill_relations` row loop: it adds one to the skip counter,
queues no reference, and the surrounding rows produce exactly the batch
they would produce without it. -/
theorem missing_endpoint_row_skipped
    (occupation_uuids skill_uuids : List String)
    (pre post : List OccSkillRow) (record : OccSkillRow)
    (h : lastSegment record.occupationUri ∉ occupation_uuids ∨
      lastSegment record.skillUri ∉ skill_uuids) :
    processOccSkillRows occupation_uuids skill_uuids
        (pre ++ record :: post) =
      ((processOccSkillRows occupation_uuids skill_uuids (pre ++ post)).1,
        (processOccSkillRows occupation_uuids skill_uuids
          (pre ++ post)).2 + 1) := by
  have hskip : processOccSkillRow occupation_uuids skill_uuids record =
      (none, 1) := by
    unfold processOccSkillRow
    rw [if_pos h]
  rw [processOccSkillRows_append, processOccSkillRows_append]
  have hcons : processOccSkillRows occupation_uuids skill_uuids
      (record :: post) =
      ((processOccSkillRows occupation_uuids skill_uuids post).1,
        1 + (processOccSkillRows occupation_uuids skill_uuids post).2) := by
    simp only [processOccSkillRows, hskip]
  rw [hcons]
  simp only [Prod.mk.injEq]
  exact ⟨by simp, by omega⟩

/-- Witness for C8: a middle row referencing a non-existent skill is
skipped while its neighbours are still queued. -/
theorem missing_endpoint_row_skipped_witness :
    processOccSkillRows ["o1", "o2"] ["s1"]
        ([{ occupationUri := "u/o1", skillUri := "u/s1",
            relationType := some "essential" }] ++
          { occupationUri := "u/o2", skillUri := "u/s9",
            relationType := none } ::
          [{ occupationUri := "u/o2", skillUri := "u/s1",
             relationType := some "optional" }]) =
      ((processOccSkillRows ["o1", "o2"] ["s1"]
          ([{ occupationUri := "u/o1", skillUri := "u/s1",
              relationType := some "essential" }] ++
            [{ occupationUri := "u/o2", skillUri := "u/s1",
               relationType := some "optional" }])).1,
        (processOccSkillRows ["o1", "o2"] ["s1"]
          ([{ occupationUri := "u/o1", skillUri := "u/s1",
              relationType := some "essential" }] ++
            [{ occupationUri := "u/o2", skillUri := "u/s1",
               relationType := some "optional" }])).2 + 1) :=
  missing_endpoint_row_skipped ["o1", "o2"] ["s1"] _ _ _ (by decide)

/-- C9: a relation row with both endpoints present queues exactly one
reference; `relationType = "optional"` maps to `hasOptionalSkill`,
`"essential"` maps to `hasEssentialSkill`, and any other value defaults
to `hasEssentialSkill`. -/
theorem relation_type_to_ref_property
    (occupation_uuids skill_uuids : List String) (record : OccSkillRow)
    (h1 : lastSegment record.occupationUri ∈ occupation_uuids)
    (h2 : lastSegment record.skillUri ∈ skill_uuids) :
    (record.relationType = some "optional" →
      processOccSkillRows occupation_uuids skill_uuids [record] =
        ([{ from_class := "Occupation"
            from_uuid := lastSegment record.occupationUri
            ref_property := "hasOptionalSkill"
            to_class := "Skill"
            to_uuid := lastSegment record.skillUri }], 0)) ∧
    (record.relationType = some "essential" →
      processOccSkillRows occupation_uuids skill_uuids [record] =
        ([{ from_class := "Occupation"
            from_uuid := lastSegment record.occupationUri
            ref_property := "hasEssentialSkill"
            to_class := "Skill"
            to_uuid := lastSegment record.skillUri }], 0)) ∧
    (∀ rt, record.relationType = some rt → rt ≠ "optional" →
      rt ≠ "essential" →
      processOccSkillRows occupation_uuids skill_uuids [record] =
        ([{ from_class := "Occupation"
            from_uuid := lastSegment record.occupationUri
            ref_property := "hasEssentialSkill"
            to_class := "Skill"
            to_uuid := lastSegment record.skillUri }], 0)) := by
  have hboth : ¬ (lastSegment record.occupationUri ∉ occupation_uuids ∨
      lastSegment record.skillUri ∉ skill_uuids) := by
    push_neg
    exact ⟨h1, h2⟩
  refine ⟨fun hrt => ?_, fun hrt => ?_, fun rt hrt hno hne => ?_⟩
  · simp [processOccSkillRows, processOccSkillRow, if_neg hboth, hrt,
      refPropFor]
  · simp [processOccSkillRows, processOccSkillRow, if_neg hboth, hrt,
      refPropFor]
  · simp [processOccSkillRows, processOccSkillRow, if_neg hboth, hrt,
      refPropFor, hno, hne]

/-- Witness for C9: concrete rows exercising the `optional`, `essential`
and unrecognized (`"x"`) relation types. -/
theorem relation_type_to_ref_property_witness :
    (processOccSkillRows ["o1"] ["s1"]
        [{ occupationUri := "u/o1", skillUri := "u/s1",
           relationType := some "optional" }] =
      ([{ from_class := "Occupation", from_uuid := lastSegment "u/o1"
          ref_property := "hasOptionalSkill"
          to_class := "Skill", to_uuid := lastSegment "u/s1" }], 0)) ∧
    (processOccSkillRows ["o1"] ["s1"]
        [{ occupationUri := "u/o1", skillUri := "u/s1",
           relationType := some "x" }] =
      ([{ from_class := "Occupation", from_uuid := lastSegment "u/o1"
          ref_property := "hasEssentialSkill"
          to_class := "Skill", to_uuid := lastSegment "u/s1" }], 0)) :=
  ⟨(relation_type_to_ref_property ["o1"] ["s1"]
      { occupationUri := "u/o1", skillUri := "u/s1",
        relationType := some "optional" }
      (by decide) (by decide)).1 rfl,
   (relation_type_to_ref_property ["o1"] ["s1"]
      { occupationUri := "u/o1", skillUri := "u/s1",
        relationType := some "x" }
      (by decide) (by decide)).2.2 "x" rfl (by decide) (by decide)⟩

theorem renameCol_self_or_value (m : List (String × String)) (c : String) :
    renameCol m c = c ∨ ∃ p ∈ m, renameCol m c = p.2 := by
  unfold renameCol
  induction m with
  | nil => left; rfl
  | cons p t ih =>
    by_cases h : c = p.1
    · right
      refine ⟨p, by simp, ?_⟩
      simp [List.lookup, h]
    · have hbeq : (c == p.1) = false := by
        simp [h]
      rcases ih with ih | ⟨q, hq, hval⟩
      · left
        simpa [List.lookup, hbeq] using ih
      · right
        refine ⟨q, by simp [hq], ?_⟩
        simpa [List.lookup, hbeq] using hval

theorem renameCol_skips_other_keys (bpart : List (String × String))
    (hb : ∀ p ∈ bpart, p.1 ≠ "conceptUri") :
    renameCol (bpart ++ [("conceptUri", "narrowerUri")]) "conceptUri" =
      "narrowerUri" := by
  unfold renameCol
  induction bpart with
  | nil => rfl
  | cons p t ih =>
    have hp : p.1 ≠ "conceptUri" := hb p (by simp)
    have hbeq : (("conceptUri" : String) == p.1) = false := by
      simp [Ne.symm hp]
    have ht : ∀ q ∈ t, q.1 ≠ "conceptUri" := fun q hq => hb q (by simp [hq])
    simpa [List.lookup, hbeq] using ih ht

/-- C7: a broader-skill relation file whose skill column is named
`conceptUri` (no `narrowerUri`, and none of the earlier aliases
`narrowerConceptUri`/`childUri`, nor the leveled format) has that column
renamed to `narrowerUri` by `standardize_hierarchy_columns`; the
subsequent check in `create_broader_skill_relations` for a column
literally named `conceptUri` then fails, and the step returns without
queuing or submitting any reference. -/
theorem broader_skill_conceptUri_renamed_away
    (batchAdd : List RefTuple → Except String Unit) (df : DataFrame)
    (skill_uuids : List String)
    (hLvl : "Level 0 URI" ∉ df.cols)
    (hNar : "narrowerUri" ∉ df.cols)
    (hNC : "narrowerConceptUri" ∉ df.cols)
    (hChild : "childUri" ∉ df.cols)
    (hConcept : "conceptUri" ∈ df.cols) :
    "narrowerUri" ∈ (standardizeHierarchyColumns df).cols ∧
    "conceptUri" ∉ (standardizeHierarchyColumns df).cols ∧
    createBroaderSkillRelations batchAdd (some df) skill_uuids =
      .ok ([], 0) := by
  -- the narrower-alias search lands on `conceptUri`
  have hfind : (["narrowerConceptUri", "childUri", "conceptUri", "targetUri",
      "skillUri"].find? (fun alt => alt ∈ df.cols)) = some "conceptUri" := by
    simp [List.find?, hNC, hChild, hConcept]
  -- the rename map splits into the broader part and the conceptUri entry
  obtain ⟨bpart, hrm, hkeys, hvals⟩ :
      ∃ bpart, hierarchyRenameMap df.cols =
          bpart ++ [("conceptUri", "narrowerUri")] ∧
        (∀ p ∈ bpart, p.1 ≠ "conceptUri") ∧
        (∀ p ∈ bpart, p.2 ≠ "conceptUri") := by
    unfold hierarchyRenameMap
    rw [if_pos hNar, hfind]
    by_cases hbu : "broaderUri" ∉ df.cols
    · rw [if_pos hbu]
      rcases hb : (["broaderConceptUri", "parentUri",
          "broaderSkillUri"].find? (fun alt => alt ∈ df.cols)) with _ | alt
      · exact ⟨[], by simp, by simp, by simp⟩
      · have halt : alt ∈ ["broaderConceptUri", "parentUri", "broaderSkillUri"] :=
          List.mem_of_find?_eq_some hb
        have haltne : alt ≠ "conceptUri" := by
          simp only [List.mem_cons, List.not_mem_nil, or_false] at halt
          rcases halt with rfl | rfl | rfl <;> decide
        exact ⟨[(alt, "broaderUri")], by simp, by simpa using haltne,
          by simp⟩
    · rw [if_neg hbu]
      exact ⟨[], by simp, by simp, by simp⟩
  -- after standardization the columns are the renamed originals
  have hne : hierarchyRenameMap df.cols ≠ [] := by
    rw [hrm]
    simp
  have hstd : (standardizeHierarchyColumns df).cols =
      df.cols.map (renameCol (hierarchyRenameMap df.cols)) := by
    simp [standardizeHierarchyColumns, hLvl, hne]
  have hconceptTo : renameCol (hierarchyRenameMap df.cols) "conceptUri" =
      "narrowerUri" := by
    rw [hrm]
    exact renameCol_skips_other_keys bpart hkeys
  have goal1 : "narrowerUri" ∈ (standardizeHierarchyColumns df).cols := by
    rw [hstd]
    exact List.mem_map.2 ⟨"conceptUri", hConcept, hconceptTo⟩
  have goal2 : "conceptUri" ∉ (standardizeHierarchyColumns df).cols := by
    rw [hstd]
    intro hmem
    obtain ⟨c, _, heq⟩ := List.mem_map.1 hmem
    by_cases hc : c = "conceptUri"
    · subst hc
      rw [hconceptTo] at heq
      exact absurd heq (by decide)
    · rcases renameCol_self_or_value (hierarchyRenameMap df.cols) c with
        hid | ⟨p, hp, hval⟩
      · exact hc (hid ▸ heq)
      · rw [hval] at heq
        rw [hrm] at hp
        rcases List.mem_append.1 hp with hp | hp
        · exact hvals p hp heq
        · simp only [List.mem_singleton] at hp
          rw [hp] at heq
          exact absurd heq (by decide)
  refine ⟨goal1, goal2, ?_⟩
  simp [createBroaderSkillRelations, goal2]

/-- Witness for C7: a concrete two-column frame `conceptUri`/`broaderUri`
with one row produces no broader-skill references. -/
theorem broader_skill_conceptUri_renamed_away_witness :
    "narrowerUri" ∈ (standardizeHierarchyColumns
      { cols := ["conceptUri", "broaderUri"],
        rows := [[("conceptUri", some "u/s1"),
                  ("broaderUri", some "u/s2")]] }).cols ∧
    "conceptUri" ∉ (standardizeHierarchyColumns
      { cols := ["conceptUri", "broaderUri"],
        rows := [[("conceptUri", some "u/s1"),
                  ("broaderUri", some "u/s2")]] }).cols ∧
    createBroaderSkillRelations (fun _ => .ok ())
      (some { cols := ["conceptUri", "broaderUri"],
              rows := [[("conceptUri", some "u/s1"),
                        ("broaderUri", some "u/s2")]] }) ["s1", "s2"] =
      .ok ([], 0) :=
  broader_skill_conceptUri_renamed_away (fun _ => .ok ())
    { cols := ["conceptUri", "broaderUri"],
      rows := [[("conceptUri", some "u/s1"), ("broaderUri", some "u/s2")]] }
    ["s1", "s2"] (by decide) (by decide) (by decide) (by decide) (by decide)

theorem setIngestionMetadata_writes (metaFails : String → Bool)
    (status detail : String) (s : Store) :
    ((setIngestionMetadata metaFails status detail s).1).writes = s.writes := by
  unfold setIngestionMetadata
  split <;> rfl

theorem updateHeartbeat_writes (metaFails : String → Bool) (stepName : String)
    (s : Store) :
    (updateHeartbeat metaFails stepName s).writes = s.writes :=
  setIngestionMetadata_writes metaFails "in_progress" stepName s

theorem runSteps_fail (metaFails : String → Bool) (failStep : Step)
    (post : List Step) (msg : String) (hf : failStep.err = some msg) :
    ∀ (pre : List Step) (s : Store), (∀ st ∈ pre, st.err = none) →
      (runSteps metaFails (pre ++ failStep :: post) s).2 = some msg ∧
      (runSteps metaFails (pre ++ failStep :: post) s).1.writes =
        s.writes ++ stepsWrites pre ++ failStep.stepWrites := by
  intro pre
  induction pre with
  | nil =>
    intro s _
    simp only [List.nil_append, runSteps, hf]
    exact ⟨trivial, by simp [stepsWrites, updateHeartbeat_writes]⟩
  | cons p pre ih =>
    intro s hpre
    have hp : p.err = none := hpre p (by simp)
    have hrest : ∀ st ∈ pre, st.err = none := fun st hst =>
      hpre st (by simp [hst])
    obtain ⟨h1, h2⟩ := ih
      { writes := (updateHeartbeat metaFails p.name s).writes ++ p.stepWrites
        statusRec := (updateHeartbeat metaFails p.name s).statusRec }
      hrest
    simp only [List.cons_append, runSteps, hp, List.append_eq]
    refine ⟨h1, ?_⟩
    rw [h2]
    simp [stepsWrites, updateHeartbeat_writes, List.append_assoc]

/-- C2 (amended): when a pipeline step raises, the writes committed by
the fully-finished earlier steps (and by the failing step before it
raised) remain in the store — no rollback; the application service
catches the exception, persists a `failed` status record carrying the
error message, and returns an `IngestionResult` with `success = false`,
`final_state = FAILED` and the exception text in `errors` — but
`steps_completed` is hardcoded to `0`, not the count of fully-finished
steps. -/
theorem run_ingestion_step_failure (metaFails : String → Bool)
    (pre post : List Step) (failStep : Step) (msg : String) (s0 : Store)
    (hpre : ∀ st ∈ pre, st.err = none) (hf : failStep.err = some msg)
    (hmf : metaFails "failed" = false) :
    (runIngestion metaFails (pre ++ failStep :: post) s0).2 =
      { success := false, steps_completed := 0, total_steps := 12
        errors := [msg], final_state := .FAILED } ∧
    (runIngestion metaFails (pre ++ failStep :: post) s0).1.statusRec =
      some { status := "failed", detail := msg } ∧
    (runIngestion metaFails (pre ++ failStep :: post) s0).1.writes =
      s0.writes ++ stepsWrites pre ++ failStep.stepWrites := by
  obtain ⟨h1, h2⟩ := runSteps_fail metaFails failStep post msg hf pre
    ((setIngestionMetadata metaFails "in_progress" "started_at" s0).1) hpre
  refine ⟨?_, ?_, ?_⟩
  · simp only [runIngestion, h1]
  · simp only [runIngestion, h1]
    simp [setIngestionMetadata, hmf]
  · simp only [runIngestion, h1]
    rw [setIngestionMetadata_writes, h2, setIngestionMetadata_writes]

/-- Witness for C2 (amended): one successful schema step followed by a
failing entity step. -/
theorem run_ingestion_step_failure_witness :
    (runIngestion (fun _ => false)
        ([{ name := "ensure_schema", stepWrites := ["schema"], err := none }] ++
          { name := "ingest_isco_groups", stepWrites := [],
            err := some "boom" } :: [])
        { writes := [], statusRec := none }).2 =
      { success := false, steps_completed := 0, total_steps := 12
        errors := ["boom"], final_state := .FAILED } ∧
    (runIngestion (fun _ => false)
        ([{ name := "ensure_schema", stepWrites := ["schema"], err := none }] ++
          { name := "ingest_isco_groups", stepWrites := [],
            err := some "boom" } :: [])
        { writes := [], statusRec := none }).1.statusRec =
      some { status := "failed", detail := "boom" } ∧
    (runIngestion (fun _ => false)
        ([{ name := "ensure_schema", stepWrites := ["schema"], err := none }] ++
          { name := "ingest_isco_groups", stepWrites := [],
            err := some "boom" } :: [])
        { writes := [], statusRec := none }).1.writes =
      ([] : List String) ++
        stepsWrites
          [{ name := "ensure_schema", stepWrites := ["schema"], err := none }] ++
        ([] : List String) :=
  run_ingestion_step_failure (fun _ => false)
    [{ name := "ensure_schema", stepWrites := ["schema"], err := none }] []
    { name := "ingest_isco_groups", stepWrites := [], err := some "boom" }
    "boom" { writes := [], statusRec := none } (by decide) rfl rfl

/-- C2 counterexample: the claim as stated says `steps_completed` reflects
the fully-finished steps; with step 7 of 12 raising after six successful
steps, the returned result reports `steps_completed = 0`, not `6` — even
though the six steps' writes are all still in the store. -/
theorem run_ingestion_steps_completed_counterexample :
    (runIngestion (fun _ => false)
        [{ name := "ensure_schema", stepWrites := ["schema"], err := none },
         { name := "ingest_isco_groups", stepWrites := ["isco"], err := none },
         { name := "ingest_occupations", stepWrites := ["occ"], err := none },
         { name := "ingest_skills", stepWrites := ["skill"], err := none },
         { name := "ingest_skill_groups", stepWrites := ["sg"], err := none },
         { name := "ingest_skill_collections", stepWrites := ["scol"],
           err := none },
         { name := "create_skill_relations", stepWrites := [],
           err := some "batch write failed" },
         { name := "create_hierarchical_relations", stepWrites := [],
           err := none },
         { name := "create_isco_group_relations", stepWrites := [],
           err := none },
         { name := "create_skill_collection_relations", stepWrites := [],
           err := none },
         { name := "create_skill_skill_relations", stepWrites := [],
           err := none },
         { name := "create_broader_skill_relations", stepWrites := [],
           err := none }]
        { writes := [], statusRec := none }).1.writes =
      ["schema", "isco", "occ", "skill", "sg", "scol"] ∧
    (runIngestion (fun _ => false)
        [{ name := "ensure_schema", stepWrites := ["schema"], err := none },
         { name := "ingest_isco_groups", stepWrites := ["isco"], err := none },
         { name := "ingest_occupations", stepWrites := ["occ"], err := none },
         { name := "ingest_skills", stepWrites := ["skill"], err := none },
         { name := "ingest_skill_groups", stepWrites := ["sg"], err := none },
         { name := "ingest_skill_collections", stepWrites := ["scol"],
           err := none },
         { name := "create_skill_relations", stepWrites := [],
           err := some "batch write failed" },
         { name := "create_hierarchical_relations", stepWrites := [],
           err := none },
         { name := "create_isco_group_relations", stepWrites := [],
           err := none },
         { name := "create_skill_collection_relations", stepWrites := [],
           err := none },
         { name := "create_skill_skill_relations", stepWrites := [],
           err := none },
         { name := "create_broader_skill_relations", stepWrites := [],
           err := none }]
        { writes := [], statusRec := none }).2.steps_completed = 0 ∧
    (runIngestion (fun _ => false)
        [{ name := "ensure_schema", stepWrites := ["schema"], err := none },
         { name := "ingest_isco_groups", stepWrites := ["isco"], err := none },
         { name := "ingest_occupations", stepWrites := ["occ"], err := none },
         { name := "ingest_skills", stepWrites := ["skill"], err := none },
         { name := "ingest_skill_groups", stepWrites := ["sg"], err := none },
         { name := "ingest_skill_collections", stepWrites := ["scol"],
           err := none },
         { name := "create_skill_relations", stepWrites := [],
           err := some "batch write failed" },
         { name := "create_hierarchical_relations", stepWrites := [],
           err := none },
         { name := "create_isco_group_relations", stepWrites := [],
           err := none },
         { name := "create_skill_collection_relations", stepWrites := [],
           err := none },
         { name := "create_skill_skill_relations", stepWrites := [],
           err := none },
         { name := "create_broader_skill_relations", stepWrites := [],
           err := none }]
        { writes := [], statusRec := none }).2.steps_completed ≠ 6 := by
  refine ⟨by decide, by decide, by decide⟩

theorem runSteps_heartbeat_congr (metaFails1 metaFails2 : String → Bool)
    (h : metaFails1 "in_progress" = metaFails2 "in_progress") :
    ∀ (steps : List Step) (s : Store),
      runSteps metaFails1 steps s = runSteps metaFails2 steps s := by
  intro steps
  induction steps with
  | nil => intro s; rfl
  | cons p rest ih =>
    intro s
    cases hp : p.err <;>
      simp only [runSteps, hp, updateHeartbeat, setIngestionMetadata, h, ih]

/-- C3 (amended): whether the write that records the `failed` status
itself throws is invisible in the returned `IngestionResult` — the
result depends only on the client's behaviour for the `in_progress` and
`completed` writes. But a failure of the write that records `completed`
is caught by the run's own exception handler: a pipeline that finished
every step then returns a failed result (success = false, the
status-write error in `errors`), masking the successful outcome. -/
theorem terminal_status_write_failure_effect :
    (∀ (metaFails1 metaFails2 : String → Bool) (steps : List Step)
        (s0 : Store),
      metaFails1 "in_progress" = metaFails2 "in_progress" →
      metaFails1 "completed" = metaFails2 "completed" →
      (runIngestion metaFails1 steps s0).2 =
        (runIngestion metaFails2 steps s0).2) ∧
    (∀ (metaFails : String → Bool) (steps : List Step) (s0 : Store),
      (runSteps metaFails steps
        ((setIngestionMetadata metaFails "in_progress" "started_at" s0).1)).2 =
          none →
      metaFails "completed" = true →
      (runIngestion metaFails steps s0).2 =
        { success := false, steps_completed := 0, total_steps := 12
          errors := ["status write failed: completed"],
          final_state := .FAILED }) := by
  constructor
  · intro metaFails1 metaFails2 steps s0 hip hc
    have hs1 : (setIngestionMetadata metaFails1 "in_progress" "started_at"
        s0).1 = (setIngestionMetadata metaFails2 "in_progress" "started_at"
        s0).1 := by
      unfold setIngestionMetadata
      rw [hip]
    simp only [runIngestion]
    rw [hs1, runSteps_heartbeat_congr metaFails1 metaFails2 hip steps]
    cases hr : (runSteps metaFails2 steps
        ((setIngestionMetadata metaFails2 "in_progress" "started_at"
          s0).1)).2 with
    | none =>
      simp only [hr]
      cases hcw : metaFails2 "completed" <;>
        simp [setIngestionMetadata, hc, hcw]
    | some e =>
      simp only [hr]
  · intro metaFails steps s0 hok hcf
    simp only [runIngestion, hok]
    simp [setIngestionMetadata, hcf]

/-- Witness for C3 (amended): a one-step pipeline run against a client
that fails only the `failed` write returns the same result as one that
never fails; the same pipeline against a client that fails only the
`completed` write returns a failed result. -/
theorem terminal_status_write_failure_effect_witness :
    ((runIngestion (fun _ => false)
        [{ name := "ensure_schema", stepWrites := ["schema"], err := none }]
        { writes := [], statusRec := none }).2 =
      (runIngestion (fun st => st == "failed")
        [{ name := "ensure_schema", stepWrites := ["schema"], err := none }]
        { writes := [], statusRec := none }).2) ∧
    ((runIngestion (fun st => st == "completed")
        [{ name := "ensure_schema", stepWrites := ["schema"], err := none }]
        { writes := [], statusRec := none }).2 =
      { success := false, steps_completed := 0, total_steps := 12
        errors := ["status write failed: completed"],
        final_state := .FAILED }) :=
  ⟨terminal_status_write_failure_effect.1 (fun _ => false)
      (fun st => st == "failed")
      [{ name := "ensure_schema", stepWrites := ["schema"], err := none }]
      { writes := [], statusRec := none } (by decide) (by decide),
   terminal_status_write_failure_effect.2 (fun st => st == "completed")
      [{ name := "ensure_schema", stepWrites := ["schema"], err := none }]
      { writes := [], statusRec := none } (by decide) (by decide)⟩

/-- C3 counterexample: the claim as stated says a terminal-status-write
failure never changes the returned result, so a pipeline that finished
all steps should still report `success = true`. With a client that fails
the `completed` write, the pipeline finishes every step (the step loop
reports no error) yet the returned result has `success = false`. -/
theorem completed_write_failure_masks_success :
    (runSteps (fun st => st == "completed")
        [{ name := "ensure_schema", stepWrites := ["schema"], err := none }]
        ((setIngestionMetadata (fun st => st == "completed") "in_progress"
          "started_at" { writes := [], statusRec := none }).1)).2 = none ∧
    (runIngestion (fun st => st == "completed")
        [{ name := "ensure_schema", stepWrites := ["schema"], err := none }]
        { writes := [], statusRec := none }).2.success = false ∧
    (false ≠ true) := by
  refine ⟨by decide, by decide, by decide⟩

end Varity
